import Mathlib

/-!
Verification development for the scenario-forecasting engine of the
nuclear-energy-forecast platform (`app/services/forecasting.py`,
`app/models/__init__.py`, `app/core/config.py`).

Modelling conventions, used consistently below:

* Python floats are modelled as exact rationals (`ℚ`); all of the engine's
  arithmetic is closed-form, so the rational semantics is the exact
  idealisation of the float code.
* `np.exp` is modelled as an abstract parameter `expFn : ℚ → ℚ`; the real
  exponential is everywhere positive, so theorems take the hypothesis
  `∀ x, 0 < expFn x` where that matters.  No theorem depends on any other
  property of `exp`.
* The pandas `DataFrame` built by `ForecastingService._get_historical_data`
  is modelled as a `List HistRow` together with name-checked column access
  (`getColumn` / `getYearColumn`): the frame has exactly the five columns
  that `_get_historical_data` puts into it when the record list is
  non-empty, and no columns at all when it is empty; access to any other
  column raises `KeyError`, which is modelled by `Except.error`.
* Python exceptions are modelled by `Except String`; a `for` loop that
  appends rows and can raise is modelled by `exceptMapList`, which stops at
  the first error exactly as the interpreter does.
* The persistence collaborator is modelled by an explicit state/trace:
  `storeForecasts` appends the batch to the stored rows (the
  `NuclearScenario` table has a fresh uuid primary key and no unique
  constraint on (scenario_name, year, model_version), so `session.add`
  always inserts), and the orchestrator result records the list of
  `_store_forecasts` invocations in `storeCalls`.
-/

/-- One row of the `processed_data.us_electricity_summary` table
(`USElectricitySummary` in `app/models/__init__.py`); dates are kept at the
year granularity the engine actually uses. -/
structure USElectricitySummaryRec where
  dateYear : ℤ
  nuclear_generation_gwh : ℚ
  nuclear_share : ℚ
  urban_population_percent : ℚ
  urban_electricity_demand_gwh : ℚ
deriving DecidableEq, Repr

/-- One row of the history frame built by
`ForecastingService._get_historical_data` (lines 73-91): note the column
set — there is an `urban_demand_twh` column but no
`urban_electricity_demand_gwh` column. -/
structure HistRow where
  year : ℤ
  nuclear_share : ℚ
  nuclear_generation_twh : ℚ
  urban_demand_twh : ℚ
  urban_population_percent : ℚ
deriving DecidableEq, Repr

/-- `ForecastingService._get_historical_data`: converts GWh to TWh by
dividing by 1000 and keeps the listed five columns. -/
def getHistoricalData (recs : List USElectricitySummaryRec) : List HistRow :=
  recs.map (fun r =>
    { year := r.dateYear
      nuclear_share := r.nuclear_share
      nuclear_generation_twh := r.nuclear_generation_gwh / 1000
      urban_demand_twh := r.urban_electricity_demand_gwh / 1000
      urban_population_percent := r.urban_population_percent })

/-- Access to a rational-valued column of the history frame.  The frame
has exactly the five columns written by `_get_historical_data` when it is
non-empty and none when it is empty (`pd.DataFrame([])` has no columns);
any other access raises `KeyError`. -/
def getColumn (frame : List HistRow) (name : String) : Except String (List ℚ) :=
  if frame.isEmpty then .error ("KeyError: " ++ name)
  else if name = "nuclear_share" then .ok (frame.map (fun r => r.nuclear_share))
  else if name = "nuclear_generation_twh" then .ok (frame.map (fun r => r.nuclear_generation_twh))
  else if name = "urban_demand_twh" then .ok (frame.map (fun r => r.urban_demand_twh))
  else if name = "urban_population_percent" then .ok (frame.map (fun r => r.urban_population_percent))
  else .error ("KeyError: " ++ name)

/-- Access to the `date` column (as years, i.e. `['date'].dt.year`). -/
def getYearColumn (frame : List HistRow) : Except String (List ℤ) :=
  if frame.isEmpty then .error ("KeyError: date")
  else .ok (frame.map (fun r => r.year))

/-- Last element of a series (`.iloc[-1]` / `array[-1]`), raising
`IndexError` on an empty series. -/
def expectLast (l : List ℚ) : Except String ℚ :=
  match l.getLast? with
  | some v => .ok v
  | none => .error ("IndexError")

/-- Maximum of a series (`.max()`), raising on an empty series. -/
def expectMax (l : List ℤ) : Except String ℤ :=
  match l.max? with
  | some v => .ok v
  | none => .error ("ValueError: max of empty sequence")

/-- A python `for` loop that appends one produced row per element and
aborts the whole call at the first raised exception. -/
def exceptMapList {α β : Type} (f : α → Except String β) : List α → Except String (List β)
  | [] => .ok []
  | x :: xs =>
    match f x with
    | .error e => .error e
    | .ok y =>
      match exceptMapList f xs with
      | .error e => .error e
      | .ok ys => .ok (y :: ys)

/-- `range(start_year, end_year + 1)` as a list of years. -/
def yearRange (sy ey : ℤ) : List ℤ :=
  (List.range (ey + 1 - sy).toNat).map (fun (i : ℕ) => sy + (i : ℤ))

/-- One `ScenarioProjection` row, with the fields every model constructs
(`NuclearScenario` columns). -/
structure Row where
  scenario_name : String
  year : ℤ
  nuclear_share : ℚ
  nuclear_generation_twh : ℚ
  urban_demand_twh : ℚ
  microreactor_units : ℤ
  microreactor_generation_twh : ℚ
  microreactor_share_of_nuclear : ℚ
  model_version : String
deriving DecidableEq, Repr

/-- The common shape of every model's `forecast` method. -/
abbrev ModelFn : Type :=
  List HistRow → ℤ → ℤ → List String → Except String (List Row)

/-- `max(0, min(1, x))` (ARIMAModel line 363). -/
def clamp01 (x : ℚ) : ℚ := max 0 (min 1 x)

/-- The degree-1 leading coefficient of `np.polyfit(range(n), ys, 1)`:
the ordinary-least-squares slope of `ys` against the observation index,
by the normal equations (exact in `ℚ`).  For `n = 1` numpy's minimum-norm
least-squares solution has slope 0, which the `ℚ` convention `x / 0 = 0`
also yields. -/
def olsSlope (ys : List ℚ) : ℚ :=
  let n : ℚ := ys.length
  let xs : List ℚ := (List.range ys.length).map (fun (i : ℕ) => (i : ℚ))
  let sx := xs.sum
  let sy := ys.sum
  let sxy := ((xs.zip ys).map (fun p => p.1 * p.2)).sum
  let sxx := (xs.map (fun x => x * x)).sum
  (n * sxy - sx * sy) / (n * sxx - sx * sx)

/-- `{'conservative': 0.8, 'base': 1.0, 'aggressive': 1.2}[scenario]`
(ARIMAModel line 355): direct dict indexing, so a missing key raises
`KeyError`. -/
def arimaScenarioMultiplier (s : String) : Except String ℚ :=
  if s = "conservative" then .ok 0.8
  else if s = "base" then .ok 1
  else if s = "aggressive" then .ok 1.2
  else .error ("KeyError: " ++ s)

/-- The body of the `for year` loop of `ARIMAModel.forecast`
(lines 357-375): reads the `date` column and its max, then the last
historical share, and appends one clamped row. -/
def arimaYearRow (frame : List HistRow) (shares : List ℚ) (slope mult : ℚ)
    (s : String) (y : ℤ) : Except String Row :=
  match getYearColumn frame with
  | .error e => .error e
  | .ok years =>
    match expectMax years with
    | .error e => .error e
    | .ok maxYear =>
      match expectLast shares with
      | .error e => .error e
      | .ok lastShare =>
        let pred := clamp01 ((lastShare + slope * ((y - maxYear : ℤ) : ℚ)) * mult)
        .ok { scenario_name := s
              year := y
              nuclear_share := pred
              nuclear_generation_twh := pred * 4000
              urban_demand_twh := 4000
              microreactor_units := 0
              microreactor_generation_twh := 0
              microreactor_share_of_nuclear := 0
              model_version := "arima_v1.0" }

/-- The body of the `for scenario` loop of `ARIMAModel.forecast`
(lines 354-375): the direct dict indexing for the multiplier happens
before the year loop, so an unrecognized name raises here. -/
def arimaScenarioRows (frame : List HistRow) (shares : List ℚ) (slope : ℚ)
    (sy ey : ℤ) (s : String) : Except String (List Row) :=
  match arimaScenarioMultiplier s with
  | .error e => .error e
  | .ok mult => exceptMapList (arimaYearRow frame shares slope mult s) (yearRange sy ey)

/-- `ARIMAModel.forecast` (lines 340-377). -/
def arimaForecast : ModelFn := fun frame sy ey scenarios =>
  match getColumn frame ("nuclear_share") with
  | .error e => .error e
  | .ok shares =>
    match exceptMapList (arimaScenarioRows frame shares (olsSlope shares) sy ey) scenarios with
    | .error e => .error e
    | .ok rowss => .ok rowss.flatten

/-- `LogisticModel._logistic_function` (line 319-320). -/
def logisticCurve (expFn : ℚ → ℚ) (t K r t0 : ℚ) : ℚ :=
  K / (1 + expFn (-r * (t - t0)))

/-- `np.linspace a b n`. -/
def linspace (a b : ℚ) (n : ℕ) : List ℚ :=
  (List.range n).map (fun i => a + (b - a) * (i : ℚ) / ((n : ℚ) - 1))

/-- Sum of squared residuals of the logistic curve against the history. -/
def logisticSse (expFn : ℚ → ℚ) (years : List ℤ) (shares : List ℚ) (K r t0 : ℚ) : ℚ :=
  (((years.map (fun y => (y : ℚ))).zip shares).map
    (fun p => (logisticCurve expFn p.1 K r t0 - p.2) ^ 2)).sum

/-- `LogisticModel._fit_logistic` (lines 299-317): exhaustive grid search
over 20 × 20 × 20 candidate triples keeping the first strict minimiser of
the SSE (strict `<` against a `float('inf')` start). -/
def fitLogistic (expFn : ℚ → ℚ) (years : List ℤ) (shares : List ℚ) : ℚ × ℚ × ℚ :=
  let Ks := linspace 0.3 0.8 20
  let rs := linspace 0.01 0.1 20
  let t0s := linspace 2000 2040 20
  let cands := Ks.flatMap (fun K => rs.flatMap (fun r => t0s.map (fun t0 => (K, r, t0))))
  ((cands.foldl (fun acc c =>
      let s := logisticSse expFn years shares c.1 c.2.1 c.2.2
      match acc with
      | none => some (s, c)
      | some (bs, bc) => if s < bs then some (s, c) else some (bs, bc)) none).map
    (fun p => p.2)).getD (0, 0, 0)

/-- `LogisticModel._get_scenario_params` adjustment factors: a `dict.get`
with the `'base'` entry as fallback, so unrecognized names fall through to
(1, 1). -/
def logisticScenarioAdjust (s : String) : ℚ × ℚ :=
  if s = "conservative" then (0.8, 0.7)
  else if s = "base" then (1, 1)
  else if s = "aggressive" then (1.2, 1.3)
  else (1, 1)

/-- `LogisticModel._get_scenario_params` (lines 322-334). -/
def logisticScenarioParams (s : String) (K r t0 : ℚ) : ℚ × ℚ × ℚ :=
  let adj := logisticScenarioAdjust s
  (K * adj.1, r * adj.2, t0)

/-- The body of the `for year` loop of `LogisticModel.forecast`
(lines 269-295): the projected share is computed, then the demand line
reads `historical_data['urban_electricity_demand_gwh']`, a column the
frame from `_get_historical_data` does not have. -/
def logisticYearRow (expFn : ℚ → ℚ) (frame : List HistRow) (years : List ℤ)
    (p : ℚ × ℚ × ℚ) (s : String) (y : ℤ) : Except String Row :=
  let pred := logisticCurve expFn (y : ℚ) p.1 p.2.1 p.2.2
  match expectMax years with
  | .error e => .error e
  | .ok baseYear =>
    match getColumn frame ("urban_electricity_demand_gwh") with
    | .error e => .error e
    | .ok demandCol =>
      match expectLast demandCol with
      | .error e => .error e
      | .ok lastDemand =>
        let demand := lastDemand / 1000 * (1 + 0.012) ^ ((y - baseYear : ℤ))
        .ok { scenario_name := s
              year := y
              nuclear_share := pred
              nuclear_generation_twh := pred * demand
              urban_demand_twh := demand
              microreactor_units := 0
              microreactor_generation_twh := 0
              microreactor_share_of_nuclear := 0
              model_version := "logistic_v1.0" }

/-- The body of the `for scenario` loop of `LogisticModel.forecast`
(lines 266-295). -/
def logisticScenarioRows (expFn : ℚ → ℚ) (frame : List HistRow) (years : List ℤ)
    (fit : ℚ × ℚ × ℚ) (sy ey : ℤ) (s : String) : Except String (List Row) :=
  exceptMapList
    (logisticYearRow expFn frame years (logisticScenarioParams s fit.1 fit.2.1 fit.2.2) s)
    (yearRange sy ey)

/-- `LogisticModel.forecast` (lines 251-297). -/
def logisticModelForecast (expFn : ℚ → ℚ) : ModelFn := fun frame sy ey scenarios =>
  match getYearColumn frame with
  | .error e => .error e
  | .ok years =>
    match getColumn frame ("nuclear_share") with
    | .error e => .error e
    | .ok shares =>
      match exceptMapList
          (logisticScenarioRows expFn frame years (fitLogistic expFn years shares) sy ey)
          scenarios with
      | .error e => .error e
      | .ok rowss => .ok rowss.flatten

/-- One row of `ProphetModel.forecast` (lines 395-408). -/
def prophetRow (s : String) (y : ℤ) : Row :=
  let pred : ℚ := 0.2 + 0.01 * ((y : ℚ) - 2025)
  { scenario_name := s
    year := y
    nuclear_share := pred
    nuclear_generation_twh := pred * 4000
    urban_demand_twh := 4000
    microreactor_units := 0
    microreactor_generation_twh := 0
    microreactor_share_of_nuclear := 0
    model_version := "prophet_v1.0" }

/-- `ProphetModel.forecast` (lines 383-413): a fixed linear share
trajectory, ignoring both the history and the scenario name. -/
def prophetForecast : ModelFn := fun _frame sy ey scenarios =>
  .ok (scenarios.flatMap (fun s => (yearRange sy ey).map (prophetRow s)))

/-- One row of `MLEnsembleModel.forecast` (lines 428-441). -/
def mlRow (s : String) (y : ℤ) : Row :=
  let pred : ℚ := 0.18 + 0.008 * ((y : ℚ) - 2025)
  { scenario_name := s
    year := y
    nuclear_share := pred
    nuclear_generation_twh := pred * 4000
    urban_demand_twh := 4000
    microreactor_units := 0
    microreactor_generation_twh := 0
    microreactor_share_of_nuclear := 0
    model_version := "ml_ensemble_v1.0" }

/-- `MLEnsembleModel.forecast` (lines 416-446): the second placeholder,
also ignoring both the history and the scenario name. -/
def mlEnsembleForecast : ModelFn := fun _frame sy ey scenarios =>
  .ok (scenarios.flatMap (fun s => (yearRange sy ey).map (mlRow s)))

/-- `settings.forecast_start_year` (`app/core/config.py` line 20). -/
def forecastStartYear : ℤ := 2025

/-- `settings.forecast_end_year` (`app/core/config.py` line 21). -/
def forecastEndYear : ℤ := 2050

/-- The static ensemble weight table of `_ensemble_forecasts`
(lines 99-104), read with `.get(model_name, 0)`. -/
def modelWeights (s : String) : ℚ :=
  if s = "logistic" then 0.3
  else if s = "arima" then 0.25
  else if s = "prophet" then 0.25
  else if s = "ml_ensemble" then 0.2
  else 0

/-- The `next((f for f in forecasts if ...), None)` cell lookup of
`_ensemble_forecasts` (lines 113-116). -/
def findCell (forecasts : List Row) (s : String) (y : ℤ) : Option Row :=
  forecasts.find? (fun f => f.year == y && f.scenario_name == s)

/-- The `predictions` dict collected for one (scenario, year) cell
(lines 110-118): one entry per model whose forecast list is non-empty and
contains the cell, in model-registration order. -/
def cellPredictions (mf : List (String × List Row)) (s : String) (y : ℤ) :
    List (String × Row) :=
  mf.filterMap (fun p =>
    if p.2.isEmpty then none
    else (findCell p.2 s y).map (fun r => (p.1, r)))

/-- A weighted field sum over the collected predictions (lines 121-134):
`sum(pred[field] * weights.get(model, 0))`, with no renormalization. -/
def weighted (preds : List (String × Row)) (field : Row → ℚ) : ℚ :=
  (preds.map (fun p => field p.2 * modelWeights p.1)).sum

/-- The combined row appended for a non-empty cell (lines 136-146). -/
def ensembleRow (mf : List (String × List Row)) (s : String) (y : ℤ) : Row :=
  let preds := cellPredictions mf s y
  { scenario_name := s
    year := y
    nuclear_share := weighted preds (fun r => r.nuclear_share)
    nuclear_generation_twh := weighted preds (fun r => r.nuclear_generation_twh)
    urban_demand_twh := weighted preds (fun r => r.urban_demand_twh)
    microreactor_units := 0
    microreactor_generation_twh := 0
    microreactor_share_of_nuclear := 0
    model_version := "v1.0" }

/-- The `if predictions:` guard of lines 120-146 for one cell: a combined
row when at least one model produced the cell, nothing otherwise. -/
def ensembleCell (mf : List (String × List Row)) (s : String) (y : ℤ) : Option Row :=
  if (cellPredictions mf s y).isEmpty then none
  else some (ensembleRow mf s y)

/-- `ForecastingService._ensemble_forecasts` (lines 93-148): iterates the
scenarios argument crossed with the settings year range 2025-2050 (not the
years found in the inputs), emitting a row only when at least one model
produced the cell. -/
def ensembleForecasts (mf : List (String × List Row)) (scenarios : List String) :
    List Row :=
  scenarios.flatMap (fun s =>
    (yearRange forecastStartYear forecastEndYear).filterMap (ensembleCell mf s))

/-- The per-scenario microreactor overlay parameter table
(`_add_microreactor_projections` lines 156-160), with `None` for a
scenario that has no entry (`if scenario in microreactor_params`). -/
structure OverlayParams where
  max_units : ℚ
  max_share : ℚ
deriving DecidableEq, Repr

/-- Overlay parameters per scenario name (lines 156-160). -/
def microreactorParams (s : String) : Option OverlayParams :=
  if s = "conservative" then some { max_units := 3000, max_share := 0.10 }
  else if s = "base" then some { max_units := 12000, max_share := 0.20 }
  else if s = "aggressive" then some { max_units := 40000, max_share := 0.30 }
  else none

/-- `ForecastingService._calculate_microreactor_units` (lines 184-197). -/
def calculateMicroreactorUnits (expFn : ℚ → ℚ) (year : ℤ) (maxUnits : ℚ) : ℚ :=
  let startYear : ℤ := 2028
  let inflectionYear : ℤ := 2035
  let growthRate : ℚ := 0.35
  if year < startYear then 0
  else
    let t : ℚ := ((year - inflectionYear : ℤ) : ℚ)
    let logisticValue : ℚ := 1 / (1 + expFn (-growthRate * t))
    let scaleFactor : ℚ :=
      maxUnits / (1 / (1 + expFn (-growthRate * ((2050 - inflectionYear : ℤ) : ℚ))))
    logisticValue * scaleFactor

/-- Python `int()` truncation toward zero on a rational. -/
def pyInt (q : ℚ) : ℤ := q.num.tdiv (q.den : ℤ)

/-- The per-row body of `_add_microreactor_projections` (lines 162-180):
rows whose scenario has no overlay parameters are left unmodified. -/
def applyMicroreactorRow (expFn : ℚ → ℚ) (f : Row) : Row :=
  match microreactorParams f.scenario_name with
  | none => f
  | some params =>
    let units := calculateMicroreactorUnits expFn f.year params.max_units
    let generationRaw := units * 1.5 * 0.9 * 8760 / 1000000
    let maxGeneration := f.nuclear_generation_twh * params.max_share
    let generation := min generationRaw maxGeneration
    { f with
      microreactor_units := pyInt units
      microreactor_generation_twh := generation
      microreactor_share_of_nuclear :=
        if f.nuclear_generation_twh > 0 then generation / f.nuclear_generation_twh
        else 0 }

/-- `ForecastingService._add_microreactor_projections` (lines 150-182).
The `scenarios` argument is accepted and ignored, as in the source. -/
def addMicroreactorProjections (expFn : ℚ → ℚ) (forecasts : List Row)
    (_scenarios : List String) : List Row :=
  forecasts.map (applyMicroreactorRow expFn)

/-- `ForecastingService._store_forecasts` (lines 199-212) against the
`NuclearScenario` table (`app/models/__init__.py` lines 68-80): the table
has a fresh uuid primary key and no unique constraint on
(scenario_name, year, model_version), and the method only calls
`session.add` per row, so a store appends the whole batch to the stored
rows; the commit is atomic. -/
def storeForecasts (stored : List Row) (batch : List Row) : List Row :=
  stored ++ batch

/-- The model registry of `ForecastingService.__init__` (lines 20-25), in
dict insertion order. -/
def standardModels (expFn : ℚ → ℚ) : List (String × ModelFn) :=
  [("logistic", logisticModelForecast expFn),
   ("arima", arimaForecast),
   ("prophet", prophetForecast),
   ("ml_ensemble", mlEnsembleForecast)]

/-- The model fan-out of `generate_scenarios` (lines 48-61): each model is
invoked under `try`; a model whose forecast raises is logged and dropped
from the ensemble input, the others are kept in registry order. -/
def runModels (models : List (String × ModelFn)) (frame : List HistRow)
    (sy ey : ℤ) (scenarios : List String) : List (String × List Row) :=
  models.filterMap (fun p =>
    match p.2 frame sy ey scenarios with
    | .ok rows => some (p.1, rows)
    | .error _ => none)

/-- The observable outcome of one `generate_scenarios` call: the returned
rows plus the trace of `_store_forecasts` invocations. -/
structure GenerateResult where
  result : List Row
  storeCalls : List (List Row)
deriving DecidableEq, Repr

/-- `ForecastingService.generate_scenarios` (lines 28-71), generalized
over the model registry exactly as the loop over `self.models.items()`
is: history is fetched once, every model runs under `try`, the successes
are combined, the overlay is applied when requested, and
`_store_forecasts` is always invoked once on the final list. -/
def generateScenariosWith (models : List (String × ModelFn))
    (recs : List USElectricitySummaryRec) (scenariosOpt : Option (List String))
    (sy ey : ℤ) (includeMicroreactors : Bool) (expFn : ℚ → ℚ) : GenerateResult :=
  let scenarios := scenariosOpt.getD ["conservative", "base", "aggressive"]
  let frame := getHistoricalData recs
  let modelForecasts := runModels models frame sy ey scenarios
  let ensemble := ensembleForecasts modelForecasts scenarios
  let final :=
    if includeMicroreactors then addMicroreactorProjections expFn ensemble scenarios
    else ensemble
  { result := final, storeCalls := [final] }

/-- `generate_scenarios` with the registry of `ForecastingService.__init__`. -/
def generateScenarios (expFn : ℚ → ℚ) (recs : List USElectricitySummaryRec)
    (scenariosOpt : Option (List String)) (sy ey : ℤ)
    (includeMicroreactors : Bool) : GenerateResult :=
  generateScenariosWith (standardModels expFn) recs scenariosOpt sy ey
    includeMicroreactors expFn

/-- An IEEE-style value for re-expressing the combiner over genuine float
semantics: a float is either finite (modelled exactly) or non-finite
(`nan`, which python propagates through `+` and `*` and never filters). -/
inductive PyVal where
  | fin : ℚ → PyVal
  | nan : PyVal
deriving DecidableEq, Repr

/-- Float addition: any non-finite operand propagates. -/
def PyVal.add : PyVal → PyVal → PyVal
  | .fin a, .fin b => .fin (a + b)
  | _, _ => .nan

/-- Float multiplication by a finite weight: `nan * w = nan`. -/
def PyVal.mulQ : PyVal → ℚ → PyVal
  | .fin a, w => .fin (a * w)
  | .nan, _ => .nan

/-- Python `sum(...)` over floats, folding from `0`. -/
def pySum (l : List PyVal) : PyVal := l.foldl PyVal.add (.fin 0)

/-- A projection row whose numeric fields carry float semantics. -/
structure RowF where
  scenario_name : String
  year : ℤ
  nuclear_share : PyVal
  nuclear_generation_twh : PyVal
  urban_demand_twh : PyVal
  microreactor_units : ℤ
  microreactor_generation_twh : PyVal
  microreactor_share_of_nuclear : PyVal
  model_version : String
deriving DecidableEq, Repr

/-- The cell lookup of `_ensemble_forecasts` over float-valued rows. -/
def findCellF (forecasts : List RowF) (s : String) (y : ℤ) : Option RowF :=
  forecasts.find? (fun f => f.year == y && f.scenario_name == s)

/-- The `predictions` dict over float-valued rows. -/
def cellPredictionsF (mf : List (String × List RowF)) (s : String) (y : ℤ) :
    List (String × RowF) :=
  mf.filterMap (fun p =>
    if p.2.isEmpty then none
    else (findCellF p.2 s y).map (fun r => (p.1, r)))

/-- The weighted sum of `_ensemble_forecasts` over float values; there is
no finiteness check anywhere in the combiner. -/
def weightedF (preds : List (String × RowF)) (field : RowF → PyVal) : PyVal :=
  pySum (preds.map (fun p => (field p.2).mulQ (modelWeights p.1)))

/-- The combined row of `_ensemble_forecasts` over float values. -/
def ensembleRowF (mf : List (String × List RowF)) (s : String) (y : ℤ) : RowF :=
  let preds := cellPredictionsF mf s y
  { scenario_name := s
    year := y
    nuclear_share := weightedF preds (fun r => r.nuclear_share)
    nuclear_generation_twh := weightedF preds (fun r => r.nuclear_generation_twh)
    urban_demand_twh := weightedF preds (fun r => r.urban_demand_twh)
    microreactor_units := 0
    microreactor_generation_twh := .fin 0
    microreactor_share_of_nuclear := .fin 0
    model_version := "v1.0" }

/-- The per-cell guard of the combiner over float-valued rows. -/
def ensembleCellF (mf : List (String × List RowF)) (s : String) (y : ℤ) : Option RowF :=
  if (cellPredictionsF mf s y).isEmpty then none
  else some (ensembleRowF mf s y)

/-- `ForecastingService._ensemble_forecasts` (lines 93-148) with its
numeric fields read under float semantics: the same translation as
`ensembleForecasts`, used to settle what the combiner does with a
non-finite model value. -/
def ensembleForecastsF (mf : List (String × List RowF)) (scenarios : List String) :
    List RowF :=
  scenarios.flatMap (fun s =>
    (yearRange forecastStartYear forecastEndYear).filterMap (ensembleCellF mf s))

/-! Basic lemmas about the loop helpers. -/

lemma mem_yearRange {sy ey y : ℤ} : y ∈ yearRange sy ey ↔ sy ≤ y ∧ y ≤ ey := by
  unfold yearRange
  simp only [List.mem_map, List.mem_range]
  constructor
  · rintro ⟨i, hi, rfl⟩
    omega
  · intro h
    refine ⟨(y - sy).toNat, by omega, by omega⟩

lemma yearRange_nodup (sy ey : ℤ) : (yearRange sy ey).Nodup := by
  unfold yearRange
  refine (List.nodup_range _).map ?_
  intro a b hab
  simp only at hab
  omega

lemma map_eq_filterMap_some {α β : Type} (f : α → β) (l : List α) :
    l.map f = l.filterMap (fun x => some (f x)) := by
  induction l with
  | nil => rfl
  | cons x xs ih => simp [List.filterMap_cons, ih]

lemma exceptMapList_ok_of {α β : Type} {f : α → Except String β} {g : α → β}
    {l : List α} (h : ∀ x ∈ l, f x = .ok (g x)) :
    exceptMapList f l = .ok (l.map g) := by
  induction l with
  | nil => rfl
  | cons x xs ih =>
    rw [exceptMapList, h x (List.mem_cons_self x xs),
      ih (fun z hz => h z (List.mem_cons_of_mem x hz))]
    rfl

lemma exceptMapList_ok_mem {α β : Type} {f : α → Except String β} {l : List α}
    {ys : List β} (h : exceptMapList f l = .ok ys) : ∀ x ∈ l, ∃ y, f x = .ok y := by
  induction l generalizing ys with
  | nil => simp
  | cons a as ih =>
    intro x hx
    rw [exceptMapList] at h
    cases hfa : f a with
    | error e => rw [hfa] at h; cases h
    | ok y =>
      rw [hfa] at h
      cases hrec : exceptMapList f as with
      | error e => rw [hrec] at h; cases h
      | ok ys2 =>
        rw [hrec] at h
        rcases List.mem_cons.mp hx with rfl | hx2
        · exact ⟨y, hfa⟩
        · exact ih hrec x hx2

lemma exceptMapList_error_of {α β : Type} {f : α → Except String β} {l : List α}
    {x : α} (hx : x ∈ l) (hf : ∀ y, f x ≠ .ok y) :
    ∃ e, exceptMapList f l = .error e := by
  cases h : exceptMapList f l with
  | error e => exact ⟨e, rfl⟩
  | ok ys =>
    obtain ⟨y, hy⟩ := exceptMapList_ok_mem h x hx
    exact absurd hy (hf y)

/-! Counting lemmas for scenario × year grids of rows, shared by the
placeholder models and the combiner. -/

section Grid

variable {α : Type} (scen : α → String) (yr : α → ℤ)

lemma grid_inner_zero {ys : List ℤ} {g : ℤ → Option α} {s : String} {y : ℤ}
    (hg : ∀ y' r, g y' = some r → yr r = y') (hy : y ∉ ys) :
    (ys.filterMap g).filter (fun r => scen r == s && yr r == y) = [] := by
  induction ys with
  | nil => rfl
  | cons a as ih =>
    have hya : y ≠ a := fun h => hy (h ▸ List.mem_cons_self a as)
    have hyas : y ∉ as := fun h => hy (List.mem_cons_of_mem a h)
    rw [List.filterMap_cons]
    cases hga : g a with
    | none => exact ih hyas
    | some r =>
      rw [List.filter_cons_of_neg, ih hyas]
      simp [hg a r hga, hya.symm]

lemma grid_inner_one {ys : List ℤ} (hys : ys.Nodup) {g : ℤ → Option α}
    {s : String} {y : ℤ}
    (hg : ∀ y' r, g y' = some r → scen r = s ∧ yr r = y')
    (hy : y ∈ ys) (hsome : (g y).isSome) :
    ((ys.filterMap g).filter (fun r => scen r == s && yr r == y)).length = 1 := by
  induction ys with
  | nil => cases hy
  | cons a as ih =>
    rw [List.filterMap_cons]
    cases hga : g a with
    | none =>
      have hya : y ≠ a := by
        rintro rfl
        rw [hga] at hsome
        cases hsome
      exact ih (List.nodup_cons.mp hys).2 (List.mem_of_ne_of_mem hya hy)
    | some r =>
      obtain ⟨hrs, hry⟩ := hg a r hga
      by_cases hay : a = y
      · subst hay
        rw [List.filter_cons_of_pos (by simp [hrs, hry]),
          grid_inner_zero scen yr (fun y' r h => (hg y' r h).2) (List.nodup_cons.mp hys).1]
        rfl
      · rw [List.filter_cons_of_neg (by simp [hry, hay])]
        exact ih (List.nodup_cons.mp hys).2 (List.mem_of_ne_of_mem (fun h => hay h.symm) hy)

lemma grid_scen_zero {scns : List String} {ys : List ℤ}
    {mk : String → ℤ → Option α} {s : String} {y : ℤ}
    (hmk : ∀ s' y' r, mk s' y' = some r → scen r = s') (hs : s ∉ scns) :
    (scns.flatMap (fun s' => ys.filterMap (mk s'))).filter
      (fun r => scen r == s && yr r == y) = [] := by
  induction scns with
  | nil => rfl
  | cons a rest ih =>
    have hsa : s ≠ a := fun h => hs (h ▸ List.mem_cons_self a rest)
    have hsrest : s ∉ rest := fun h => hs (List.mem_cons_of_mem a h)
    rw [List.flatMap_cons, List.filter_append, ih hsrest, List.append_nil]
    rw [List.filter_eq_nil_iff]
    intro r hr
    obtain ⟨y', _, hy'⟩ := List.mem_filterMap.mp hr
    simp [hmk a y' r hy', hsa.symm]

lemma grid_length_one {scns : List String} (hnd : scns.Nodup) {ys : List ℤ}
    (hys : ys.Nodup) {mk : String → ℤ → Option α}
    (hmk : ∀ s' y' r, mk s' y' = some r → scen r = s' ∧ yr r = y')
    {s : String} {y : ℤ} (hs : s ∈ scns) (hy : y ∈ ys)
    (hsome : (mk s y).isSome) :
    ((scns.flatMap (fun s' => ys.filterMap (mk s'))).filter
      (fun r => scen r == s && yr r == y)).length = 1 := by
  induction scns with
  | nil => cases hs
  | cons a rest ih =>
    rw [List.flatMap_cons, List.filter_append, List.length_append]
    by_cases has : a = s
    · subst has
      rw [grid_inner_one scen yr hys (fun y' r h => hmk a y' r h) hy hsome,
        grid_scen_zero scen yr (fun s' y' r h => (hmk s' y' r h).1)
          (List.nodup_cons.mp hnd).1, List.length_nil]
    · have h1 : (ys.filterMap (mk a)).filter
          (fun r => scen r == s && yr r == y) = [] := by
        rw [List.filter_eq_nil_iff]
        intro r hr
        obtain ⟨y', _, hy'⟩ := List.mem_filterMap.mp hr
        simp [(hmk a y' r hy').1, has]
      rw [h1, List.length_nil, Nat.zero_add]
      exact ih (List.nodup_cons.mp hnd).2 (List.mem_of_ne_of_mem (fun h => has h.symm) hs)

lemma mem_grid {scns : List String} {ys : List ℤ}
    {mk : String → ℤ → Option α} {r : α} :
    r ∈ scns.flatMap (fun s' => ys.filterMap (mk s')) ↔
      ∃ s' ∈ scns, ∃ y' ∈ ys, mk s' y' = some r := by
  simp [List.mem_flatMap, List.mem_filterMap]

end Grid

/-! Lemmas about the models' error behaviour. -/

lemma not_ok_exists_error {γ : Type} {x : Except String γ}
    (h : ∀ v, x ≠ .ok v) : ∃ e, x = .error e := by
  cases x with
  | error e => exact ⟨e, rfl⟩
  | ok v => exact absurd rfl (h v)

lemma getColumn_no_demand (frame : List HistRow) :
    ∃ e, getColumn frame ("urban_electricity_demand_gwh") = .error e := by
  unfold getColumn
  split
  · exact ⟨_, rfl⟩
  · rw [if_neg (by decide), if_neg (by decide), if_neg (by decide), if_neg (by decide)]
    exact ⟨_, rfl⟩

lemma logisticYearRow_not_ok (expFn : ℚ → ℚ) (frame : List HistRow)
    (years : List ℤ) (p : ℚ × ℚ × ℚ) (s : String) (y : ℤ) :
    ∀ v, logisticYearRow expFn frame years p s y ≠ .ok v := by
  intro v h
  unfold logisticYearRow at h
  obtain ⟨e, he⟩ := getColumn_no_demand frame
  cases hm : expectMax years with
  | error e2 => simp [hm] at h
  | ok b => simp [hm, he] at h

lemma logisticScenarioRows_not_ok (expFn : ℚ → ℚ) (frame : List HistRow)
    (years : List ℤ) (fit : ℚ × ℚ × ℚ) {sy ey : ℤ} (hy : sy ≤ ey) (s : String) :
    ∀ v, logisticScenarioRows expFn frame years fit sy ey s ≠ .ok v := by
  intro v h
  unfold logisticScenarioRows at h
  obtain ⟨e, he⟩ := exceptMapList_error_of (x := sy)
    (mem_yearRange.mpr ⟨le_refl sy, hy⟩)
    (logisticYearRow_not_ok expFn frame years
      (logisticScenarioParams s fit.1 fit.2.1 fit.2.2) s sy)
  rw [he] at h
  cases h

lemma logisticModelForecast_not_ok (expFn : ℚ → ℚ) (frame : List HistRow)
    {sy ey : ℤ} (hy : sy ≤ ey) (s : String) (rest : List String) :
    ∀ v, logisticModelForecast expFn frame sy ey (s :: rest) ≠ .ok v := by
  intro v h
  unfold logisticModelForecast at h
  split at h
  · cases h
  · split at h
    · cases h
    · split at h
      · cases h
      · rename_i heq
        obtain ⟨w, hw⟩ := exceptMapList_ok_mem heq s (List.mem_cons_self s rest)
        exact logisticScenarioRows_not_ok _ _ _ _ hy s w hw

lemma arimaScenarioMultiplier_unrecognized {s : String}
    (h1 : s ≠ "conservative") (h2 : s ≠ "base") (h3 : s ≠ "aggressive") :
    arimaScenarioMultiplier s = .error ("KeyError: " ++ s) := by
  unfold arimaScenarioMultiplier
  rw [if_neg h1, if_neg h2, if_neg h3]

lemma arimaScenarioRows_not_ok_unrecognized {s : String}
    (h1 : s ≠ "conservative") (h2 : s ≠ "base") (h3 : s ≠ "aggressive")
    (frame : List HistRow) (shares : List ℚ) (slope : ℚ) (sy ey : ℤ) :
    ∀ v, arimaScenarioRows frame shares slope sy ey s ≠ .ok v := by
  intro v h
  unfold arimaScenarioRows at h
  rw [arimaScenarioMultiplier_unrecognized h1 h2 h3] at h
  cases h

lemma arimaForecast_not_ok_unrecognized {s : String} {scns : List String}
    (hs : s ∈ scns) (h1 : s ≠ "conservative") (h2 : s ≠ "base")
    (h3 : s ≠ "aggressive") (frame : List HistRow) (sy ey : ℤ) :
    ∀ v, arimaForecast frame sy ey scns ≠ .ok v := by
  intro v h
  unfold arimaForecast at h
  split at h
  · cases h
  · split at h
    · cases h
    · rename_i heq
      obtain ⟨w, hw⟩ := exceptMapList_ok_mem heq s hs
      exact arimaScenarioRows_not_ok_unrecognized h1 h2 h3 _ _ _ sy ey w hw

lemma logisticModelForecast_nil_error (expFn : ℚ → ℚ) (sy ey : ℤ)
    (scns : List String) :
    logisticModelForecast expFn [] sy ey scns = .error ("KeyError: date") := rfl

lemma arimaForecast_nil_error (sy ey : ℤ) (scns : List String) :
    arimaForecast [] sy ey scns = .error ("KeyError: nuclear_share") := rfl

/-! Lemmas about the adoption overlay. -/

lemma microreactorParams_nonneg {s : String} {p : OverlayParams}
    (h : microreactorParams s = some p) : 0 ≤ p.max_units ∧ 0 ≤ p.max_share := by
  unfold microreactorParams at h
  split at h
  · cases h; exact ⟨by norm_num, by norm_num⟩
  · split at h
    · cases h; exact ⟨by norm_num, by norm_num⟩
    · split at h
      · cases h; exact ⟨by norm_num, by norm_num⟩
      · cases h

lemma one_add_expFn_pos {expFn : ℚ → ℚ} (hexp : ∀ x, 0 < expFn x) (x : ℚ) :
    0 < 1 + expFn x := by
  have := hexp x
  linarith

lemma calculateMicroreactorUnits_nonneg {expFn : ℚ → ℚ}
    (hexp : ∀ x, 0 < expFn x) {maxUnits : ℚ} (hmu : 0 ≤ maxUnits) (year : ℤ) :
    0 ≤ calculateMicroreactorUnits expFn year maxUnits := by
  simp only [calculateMicroreactorUnits]
  split
  · exact le_refl 0
  · refine mul_nonneg ?_ ?_
    · exact div_nonneg zero_le_one (one_add_expFn_pos hexp _).le
    · exact div_nonneg hmu (div_nonneg zero_le_one (one_add_expFn_pos hexp _).le)

/-- C2: for every scenario with defined overlay parameters, the
microreactor unit count of `_calculate_microreactor_units` is 0 for every
year before 2028; from 2028 on it is the logistic curve with inflection
year 2035 and growth rate 0.35, scaled by the factor
`max_units / logistic_value_at(2050)`; and at year 2050 it equals
`max_units` exactly. -/
theorem c2_adoption_units_curve (expFn : ℚ → ℚ) (hexp : ∀ x, 0 < expFn x)
    (s : String) (p : OverlayParams) (_hp : microreactorParams s = some p) :
    (∀ y : ℤ, y < 2028 → calculateMicroreactorUnits expFn y p.max_units = 0) ∧
    (∀ y : ℤ, 2028 ≤ y →
      calculateMicroreactorUnits expFn y p.max_units =
        (1 / (1 + expFn (-(0.35) * ((y : ℚ) - 2035)))) *
          (p.max_units / (1 / (1 + expFn (-(0.35) * 15))))) ∧
    calculateMicroreactorUnits expFn 2050 p.max_units = p.max_units := by
  have hcurve : ∀ y : ℤ, 2028 ≤ y →
      calculateMicroreactorUnits expFn y p.max_units =
        (1 / (1 + expFn (-(0.35) * ((y : ℚ) - 2035)))) *
          (p.max_units / (1 / (1 + expFn (-(0.35) * 15)))) := by
    intro y hy
    simp only [calculateMicroreactorUnits]
    rw [if_neg (by omega)]
    norm_num
  refine ⟨?_, hcurve, ?_⟩
  · intro y hy
    simp only [calculateMicroreactorUnits]
    rw [if_pos (by omega)]
  · rw [hcurve 2050 (by norm_num)]
    have hE : (0 : ℚ) < 1 + expFn (-(0.35) * 15) := one_add_expFn_pos hexp _
    have h1 : ((2050 : ℤ) : ℚ) - 2035 = 15 := by norm_num
    rw [h1]
    field_simp
    rw [mul_div_assoc, div_self (one_add_expFn_pos hexp _).ne', mul_one]

/-- Witness for `c2_adoption_units_curve`: with a concrete positive
stand-in for `exp`, the base scenario's unit count at 2050 is exactly the
base `max_units` of 12000. -/
theorem c2_adoption_units_curve_witness :
    calculateMicroreactorUnits (fun _ => 2) 2050 (12000 : ℚ) = 12000 := by
  exact (c2_adoption_units_curve (fun _ => 2) (fun x => by norm_num) ("base")
    { max_units := 12000, max_share := 0.20 } rfl).2.2

/-- C1: after the adoption overlay, every row whose scenario has defined
overlay parameters satisfies the generation cap
`microreactor_generation ≤ nuclear_generation × max_share`, the
share-of-nuclear ratio is the guarded quotient (the quotient when
`nuclear_generation > 0`, else 0), and the ratio is never negative. -/
theorem c1_overlay_invariants (expFn : ℚ → ℚ) (hexp : ∀ x, 0 < expFn x)
    (rows : List Row) (scns : List String) :
    ∀ r ∈ addMicroreactorProjections expFn rows scns, ∀ p : OverlayParams,
      microreactorParams r.scenario_name = some p →
      r.microreactor_generation_twh ≤ r.nuclear_generation_twh * p.max_share ∧
      (0 < r.nuclear_generation_twh →
        r.microreactor_share_of_nuclear =
          r.microreactor_generation_twh / r.nuclear_generation_twh) ∧
      (¬ 0 < r.nuclear_generation_twh → r.microreactor_share_of_nuclear = 0) ∧
      0 ≤ r.microreactor_share_of_nuclear := by
  intro r hr p hp
  obtain ⟨r0, hr0, rfl⟩ := List.mem_map.mp hr
  cases hm : microreactorParams r0.scenario_name with
  | none =>
    simp only [applyMicroreactorRow, hm] at hp
    cases hp
  | some q =>
    simp only [applyMicroreactorRow, hm] at hp ⊢
    cases hp
    have hunits : 0 ≤ calculateMicroreactorUnits expFn r0.year p.max_units :=
      calculateMicroreactorUnits_nonneg hexp (microreactorParams_nonneg hm).1 _
    have hraw : 0 ≤ calculateMicroreactorUnits expFn r0.year p.max_units
        * 1.5 * 0.9 * 8760 / 1000000 := by
      refine div_nonneg ?_ (by norm_num)
      refine mul_nonneg (mul_nonneg (mul_nonneg hunits ?_) ?_) ?_ <;> norm_num
    refine ⟨min_le_right _ _, ?_, ?_, ?_⟩
    · intro hpos
      rw [if_pos hpos]
    · intro hneg
      rw [if_neg hneg]
    · by_cases hpos : 0 < r0.nuclear_generation_twh
      · rw [if_pos hpos]
        refine div_nonneg (le_min hraw ?_) hpos.le
        exact mul_nonneg hpos.le (microreactorParams_nonneg hm).2
      · rw [if_neg hpos]

/-- Concrete row for the C1 witness. -/
def c1row : Row :=
  { scenario_name := "base"
    year := 2030
    nuclear_share := 0.25
    nuclear_generation_twh := 100
    urban_demand_twh := 400
    microreactor_units := 0
    microreactor_generation_twh := 0
    microreactor_share_of_nuclear := 0
    model_version := "v1.0" }

/-- Witness for `c1_overlay_invariants` at a concrete base-scenario row. -/
theorem c1_overlay_invariants_witness :
    (applyMicroreactorRow (fun _ => 1) c1row).microreactor_generation_twh ≤
      (applyMicroreactorRow (fun _ => 1) c1row).nuclear_generation_twh * (0.20 : ℚ) ∧
    0 ≤ (applyMicroreactorRow (fun _ => 1) c1row).microreactor_share_of_nuclear := by
  have h := c1_overlay_invariants (fun _ => 1) (fun x => one_pos) [c1row] []
    (applyMicroreactorRow (fun _ => 1) c1row)
    (List.mem_singleton.mpr rfl)
    { max_units := 12000, max_share := 0.20 } rfl
  exact ⟨h.1, h.2.2.2⟩

/-- A concrete two-observation history frame (years 2023 and 2024 with
shares 0.18 and 0.19). -/
def hist2 : List HistRow :=
  [{ year := 2023
     nuclear_share := 0.18
     nuclear_generation_twh := 700
     urban_demand_twh := 3000
     urban_population_percent := 80 },
   { year := 2024
     nuclear_share := 0.19
     nuclear_generation_twh := 750
     urban_demand_twh := 3100
     urban_population_percent := 81 }]

/-- C5 counterexample: `ARIMAModel.forecast` called with the unrecognized
scenario name `"expansion"` raises `KeyError` (dict indexing at line 355)
instead of falling through to base-equivalent coefficients. -/
theorem c5_unrecognized_scenario_counterexample :
    arimaForecast hist2 2030 2030 ["expansion"] =
      .error ("KeyError: expansion") := rfl

/-- C5 amended: for scenario names outside conservative/base/aggressive,
the logistic model's coefficient lookup falls back to the base entry, the
overlay leaves rows unmodified, but `ARIMAModel.forecast` raises a
`KeyError`; the orchestrator catches that failure, so its own call
proceeds using the remaining models (the logistic model also drops out,
failing on its missing demand column). -/
theorem c5_unrecognized_scenario_behavior :
    (∀ s : String, s ∉ ["conservative", "base", "aggressive"] →
      ∀ K r t0 : ℚ,
        logisticScenarioParams s K r t0 = logisticScenarioParams ("base") K r t0) ∧
    (∀ s : String, s ∉ ["conservative", "base", "aggressive"] →
      microreactorParams s = none ∧
      ∀ (expFn : ℚ → ℚ) (row : Row), row.scenario_name = s →
        applyMicroreactorRow expFn row = row) ∧
    (∀ s : String, s ∉ ["conservative", "base", "aggressive"] →
      ∀ (frame : List HistRow) (sy ey : ℤ) (scns : List String), s ∈ scns →
        ∀ v, arimaForecast frame sy ey scns ≠ .ok v) ∧
    (∀ (expFn : ℚ → ℚ) (recs : List USElectricitySummaryRec) (sy ey : ℤ)
      (s : String), s ∉ ["conservative", "base", "aggressive"] → sy ≤ ey →
      (generateScenarios expFn recs (some [s]) sy ey false).result =
        ensembleForecasts
          (runModels [("prophet", prophetForecast), ("ml_ensemble", mlEnsembleForecast)]
            (getHistoricalData recs) sy ey [s]) [s]) := by
  have hne : ∀ s : String, s ∉ ["conservative", "base", "aggressive"] →
      s ≠ "conservative" ∧ s ≠ "base" ∧ s ≠ "aggressive" := by
    intro s hs
    simp only [List.mem_cons, List.mem_singleton] at hs
    push_neg at hs
    exact ⟨hs.1, hs.2.1, hs.2.2.1⟩
  refine ⟨?_, ?_, ?_, ?_⟩
  · intro s hs K r t0
    obtain ⟨h1, h2, h3⟩ := hne s hs
    simp only [logisticScenarioParams, logisticScenarioAdjust]
    rw [if_neg h1, if_neg h2, if_neg h3]
    simp
  · intro s hs
    obtain ⟨h1, h2, h3⟩ := hne s hs
    have hnone : microreactorParams s = none := by
      unfold microreactorParams
      rw [if_neg h1, if_neg h2, if_neg h3]
    refine ⟨hnone, ?_⟩
    intro expFn row hrow
    unfold applyMicroreactorRow
    rw [hrow, hnone]
  · intro s hs frame sy ey scns hmem
    obtain ⟨h1, h2, h3⟩ := hne s hs
    exact arimaForecast_not_ok_unrecognized hmem h1 h2 h3 frame sy ey
  · intro expFn recs sy ey s hs hy
    obtain ⟨h1, h2, h3⟩ := hne s hs
    obtain ⟨e1, he1⟩ :=
      not_ok_exists_error (logisticModelForecast_not_ok expFn (getHistoricalData recs) hy s [])
    obtain ⟨e2, he2⟩ := not_ok_exists_error
      (arimaForecast_not_ok_unrecognized (List.mem_singleton.mpr rfl) h1 h2 h3
        (getHistoricalData recs) sy ey)
    simp only [generateScenarios, generateScenariosWith, runModels, standardModels,
      Option.getD, List.filterMap_cons, List.filterMap_nil, he1, he2]
    simp

/-- Witness for `c5_unrecognized_scenario_behavior`: the logistic
coefficient fallback at the unrecognized name `"expansion"`. -/
theorem c5_unrecognized_scenario_behavior_witness :
    logisticScenarioParams ("expansion") 0.5 0.05 2005 =
      logisticScenarioParams ("base") 0.5 0.05 2005 :=
  c5_unrecognized_scenario_behavior.1 ("expansion") (by decide) 0.5 0.05 2005

/-- C6 (code bug): the history frame built by `_get_historical_data` has
no `urban_electricity_demand_gwh` column, so `LogisticModel.forecast`
raises `KeyError` on every non-empty snapshot and any non-trivial request
instead of compounding demand at 1.2% per year. -/
theorem c6_logistic_demand_keyerror :
    (∀ recs : List USElectricitySummaryRec,
      ∃ e, getColumn (getHistoricalData recs) ("urban_electricity_demand_gwh") =
        .error e) ∧
    (∀ (expFn : ℚ → ℚ) (recs : List USElectricitySummaryRec) (sy ey : ℤ)
      (s : String) (rest : List String), recs ≠ [] → sy ≤ ey →
      ∃ e, logisticModelForecast expFn (getHistoricalData recs) sy ey (s :: rest) =
        .error e) := by
  refine ⟨fun recs => getColumn_no_demand _, ?_⟩
  intro expFn recs sy ey s rest _hne hy
  exact not_ok_exists_error (logisticModelForecast_not_ok expFn _ hy s rest)

/-- A concrete source record for the C6 witness. -/
def c6rec : USElectricitySummaryRec :=
  { dateYear := 2024
    nuclear_generation_gwh := 775000
    nuclear_share := 0.18
    urban_population_percent := 80
    urban_electricity_demand_gwh := 3000000 }

/-- Witness for `c6_logistic_demand_keyerror` on a one-record history. -/
theorem c6_logistic_demand_keyerror_witness :
    ∃ e, logisticModelForecast (fun _ => 1) (getHistoricalData [c6rec]) 2025 2050
      ["base"] = .error e :=
  c6_logistic_demand_keyerror.2 (fun _ => 1) [c6rec] 2025 2050 ("base") []
    (List.cons_ne_nil _ _) (by norm_num)

/-- C7 counterexample: storing the same one-row batch twice doubles the
stored row count instead of leaving it unchanged. -/
theorem c7_store_twice_counterexample :
    (storeForecasts (storeForecasts [] [c1row]) [c1row]).length ≠
      (storeForecasts [] [c1row]).length := by
  decide

/-- C7 amended: `_store_forecasts` only inserts (`session.add` against a
table keyed by a fresh uuid with no unique constraint), so storing the
same generated batch twice appends a second identical copy of the batch:
the row count grows by the batch size. -/
theorem c7_store_twice_appends (stored batch : List Row) :
    storeForecasts (storeForecasts stored batch) batch =
      storeForecasts stored batch ++ batch ∧
    (storeForecasts (storeForecasts stored batch) batch).length =
      (storeForecasts stored batch).length + batch.length := by
  refine ⟨rfl, ?_⟩
  simp only [storeForecasts, List.length_append]

/-- C8 counterexample: with an empty scenario set the orchestrator still
invokes the persistence sink (once, with the empty batch). -/
theorem c8_empty_scenarios_counterexample :
    (generateScenarios (fun _ => 1) [] (some []) 2025 2050 true).storeCalls ≠ [] := by
  exact fun h => List.cons_ne_nil _ _ h

/-- C8 amended: for an empty scenario set the orchestrator returns an
empty sequence and raises no error, but it still makes exactly one call
to the persistence collaborator, passing the empty batch (no rows are
written). -/
theorem c8_empty_scenarios (expFn : ℚ → ℚ) (recs : List USElectricitySummaryRec)
    (sy ey : ℤ) (incl : Bool) :
    (generateScenarios expFn recs (some []) sy ey incl).result = [] ∧
    (generateScenarios expFn recs (some []) sy ey incl).storeCalls = [[]] := by
  cases incl <;> exact ⟨rfl, rfl⟩

/-! The ensemble combiner: which cells it emits. -/

lemma ensembleCell_some {mf : List (String × List Row)} {s : String} {y : ℤ}
    {r : Row} (h : ensembleCell mf s y = some r) :
    cellPredictions mf s y ≠ [] ∧ r = ensembleRow mf s y := by
  unfold ensembleCell at h
  split at h
  · cases h
  · rename_i hne
    cases h
    exact ⟨by simpa [List.isEmpty_iff] using hne, rfl⟩

lemma ensembleCell_isSome {mf : List (String × List Row)} {s : String} {y : ℤ}
    (h : cellPredictions mf s y ≠ []) : (ensembleCell mf s y).isSome := by
  unfold ensembleCell
  rw [if_neg (by simpa [List.isEmpty_iff] using h)]
  rfl

lemma mem_ensembleForecasts {mf : List (String × List Row)} {scns : List String}
    {r : Row} :
    r ∈ ensembleForecasts mf scns ↔
      ∃ s ∈ scns, ∃ y ∈ yearRange forecastStartYear forecastEndYear,
        cellPredictions mf s y ≠ [] ∧ r = ensembleRow mf s y := by
  unfold ensembleForecasts
  rw [mem_grid]
  constructor
  · rintro ⟨s, hs, y, hy, hcell⟩
    obtain ⟨h1, h2⟩ := ensembleCell_some hcell
    exact ⟨s, hs, y, hy, h1, h2⟩
  · rintro ⟨s, hs, y, hy, h1, rfl⟩
    refine ⟨s, hs, y, hy, ?_⟩
    unfold ensembleCell
    rw [if_neg (by simpa [List.isEmpty_iff] using h1)]

/-- C3 amended: the combiner emits exactly one row per (scenario, year)
cell with the scenario drawn from its scenarios argument and the year
from the settings range 2025-2050 for which at least one model produced
the cell (cells outside that grid are dropped, even when present in the
inputs); each emitted row's numeric fields are the weighted sums over
exactly the models that produced the cell, with no weight
renormalization, and its microreactor fields are zero. -/
theorem c3_ensemble_combiner (mf : List (String × List Row)) (scns : List String)
    (hnd : scns.Nodup) :
    (∀ r ∈ ensembleForecasts mf scns,
      r.scenario_name ∈ scns ∧
      r.year ∈ yearRange forecastStartYear forecastEndYear ∧
      cellPredictions mf r.scenario_name r.year ≠ [] ∧
      r.nuclear_share =
        weighted (cellPredictions mf r.scenario_name r.year) (fun x => x.nuclear_share) ∧
      r.nuclear_generation_twh =
        weighted (cellPredictions mf r.scenario_name r.year)
          (fun x => x.nuclear_generation_twh) ∧
      r.urban_demand_twh =
        weighted (cellPredictions mf r.scenario_name r.year)
          (fun x => x.urban_demand_twh) ∧
      r.microreactor_units = 0 ∧ r.microreactor_generation_twh = 0 ∧
      r.microreactor_share_of_nuclear = 0 ∧ r.model_version = "v1.0") ∧
    (∀ s ∈ scns, ∀ y ∈ yearRange forecastStartYear forecastEndYear,
      cellPredictions mf s y ≠ [] →
      ((ensembleForecasts mf scns).filter
        (fun r => r.scenario_name == s && r.year == y)).length = 1) := by
  constructor
  · intro r hr
    obtain ⟨s, hs, y, hy, h1, rfl⟩ := mem_ensembleForecasts.mp hr
    exact ⟨hs, hy, h1, rfl, rfl, rfl, rfl, rfl, rfl, rfl⟩
  · intro s hs y hy hcell
    unfold ensembleForecasts
    exact grid_length_one (fun x => x.scenario_name) (fun x => x.year) hnd
      (yearRange_nodup _ _)
      (fun s' y' r h => by
        obtain ⟨_, h2⟩ := ensembleCell_some h
        exact ⟨by rw [h2]; rfl, by rw [h2]; rfl⟩)
      hs hy (ensembleCell_isSome hcell)

/-- A model-produced row at the cell ("base", 2051), outside the settings
year range. -/
def c3row : Row :=
  { scenario_name := "base"
    year := 2051
    nuclear_share := 0.2
    nuclear_generation_twh := 800
    urban_demand_twh := 4000
    microreactor_units := 0
    microreactor_generation_twh := 0
    microreactor_share_of_nuclear := 0
    model_version := "logistic_v1.0" }

/-- C3 counterexample: the cell ("base", 2051) is present in the union of
the model inputs, yet the combiner (which iterates the settings range
2025-2050) emits no row for it at all — the output is empty. -/
theorem c3_ensemble_counterexample :
    ensembleForecasts [("logistic", [c3row])] ["base"] = [] ∧ c3row.year = 2051 := by
  refine ⟨?_, rfl⟩
  unfold ensembleForecasts
  rw [List.flatMap_cons, List.flatMap_nil, List.append_nil]
  rw [List.filterMap_eq_nil_iff]
  intro y hy
  have hy' : y ≤ 2050 := (mem_yearRange.mp hy).2
  have hfind : findCell [c3row] ("base") y = none := by
    unfold findCell
    have hpred : (c3row.year == y && c3row.scenario_name == ("base" : String)) = false := by
      have h1 : c3row.year ≠ y := by
        simp only [c3row]
        omega
      simp [h1]
    rw [List.find?_cons_of_neg _ (by simp [hpred]), List.find?_nil]
  have hcell : cellPredictions [("logistic", [c3row])] ("base") y = [] := by
    unfold cellPredictions
    rw [List.filterMap_cons, List.filterMap_nil]
    simp [hfind]
  unfold ensembleCell
  rw [if_pos (by simp [hcell])]

/-- A model-produced row at the in-range cell ("base", 2030). -/
def c3wrow : Row :=
  { scenario_name := "base"
    year := 2030
    nuclear_share := 0.25
    nuclear_generation_twh := 1000
    urban_demand_twh := 4000
    microreactor_units := 0
    microreactor_generation_twh := 0
    microreactor_share_of_nuclear := 0
    model_version := "prophet_v1.0" }

/-- Witness for `c3_ensemble_combiner`: a single model producing the cell
("base", 2030) yields exactly one combined row for that cell. -/
theorem c3_ensemble_combiner_witness :
    ((ensembleForecasts [("prophet", [c3wrow])] ["base"]).filter
      (fun r => r.scenario_name == ("base" : String) && r.year == (2030 : ℤ))).length = 1 := by
  refine (c3_ensemble_combiner [("prophet", [c3wrow])] ["base"]
    (List.nodup_singleton _)).2 ("base") (List.mem_singleton.mpr rfl) 2030
    (mem_yearRange.mpr (by decide)) ?_
  exact List.cons_ne_nil _ _

/-! The trend-extrapolation model (ARIMAModel). -/

lemma expectMax_ok {l : List ℤ} (h : l ≠ []) :
    ∃ m, expectMax l = .ok m ∧ l.max? = some m := by
  cases hm : l.max? with
  | none =>
    cases l with
    | nil => exact absurd rfl h
    | cons a as => cases hm
  | some m => exact ⟨m, by unfold expectMax; rw [hm], rfl⟩

lemma expectLast_ok {l : List ℚ} (h : l ≠ []) :
    ∃ v, expectLast l = .ok v ∧ l.getLast? = some v := by
  cases hl : l.getLast? with
  | none =>
    rw [List.getLast?_eq_none_iff] at hl
    exact absurd hl h
  | some v => exact ⟨v, by unfold expectLast; rw [hl], rfl⟩

/-- The historical share series `historical_data['nuclear_share'].values`
read by `ARIMAModel.forecast` (line 350). -/
def arimaShares (frame : List HistRow) : List ℚ :=
  frame.map (fun h => h.nuclear_share)

/-- The last historical share `nuclear_share_series[-1]` (line 360). -/
def arimaLastShare (frame : List HistRow) : ℚ :=
  (arimaShares frame).getLast?.getD 0

/-- The last historical year `historical_data['date'].dt.year.max()`
(line 358). -/
def arimaMaxYear (frame : List HistRow) : ℤ :=
  ((frame.map (fun h => h.year)).max?).getD 0

/-- C4: the trend-extrapolation model's scenario multiplier table is
0.8 / 1.0 / 1.2; on a non-empty history and a recognized scenario it
returns one row per year of the requested range whose share is
`clamp01((last_share + ols_slope × (year − last_year)) × multiplier)`
with the slope the OLS fit of the shares against observation index; and
on the concrete history [0.18 @ 2023, 0.19 @ 2024] with scenario "base"
and year range 2030..2030 it returns exactly one row with share
`min(1, max(0, 0.19 + 0.01 × 6))`. -/
theorem c4_trend_extrapolation :
    (arimaScenarioMultiplier ("conservative") = .ok 0.8 ∧
     arimaScenarioMultiplier ("base") = .ok 1 ∧
     arimaScenarioMultiplier ("aggressive") = .ok 1.2) ∧
    (∀ frame : List HistRow, frame ≠ [] → ∀ (s : String) (m : ℚ),
      arimaScenarioMultiplier s = .ok m → ∀ sy ey : ℤ,
      arimaForecast frame sy ey [s] =
        .ok ((yearRange sy ey).map (fun y =>
          { scenario_name := s
            year := y
            nuclear_share := clamp01 ((arimaLastShare frame +
              olsSlope (arimaShares frame) * ((y - arimaMaxYear frame : ℤ) : ℚ)) * m)
            nuclear_generation_twh := clamp01 ((arimaLastShare frame +
              olsSlope (arimaShares frame) * ((y - arimaMaxYear frame : ℤ) : ℚ)) * m) * 4000
            urban_demand_twh := 4000
            microreactor_units := 0
            microreactor_generation_twh := 0
            microreactor_share_of_nuclear := 0
            model_version := "arima_v1.0" }))) ∧
    (olsSlope [0.18, 0.19] = 0.01 ∧
     arimaForecast hist2 2030 2030 ["base"] =
      .ok [{ scenario_name := "base"
             year := 2030
             nuclear_share := min 1 (max 0 ((0.19 : ℚ) + 0.01 * 6))
             nuclear_generation_twh := min 1 (max 0 ((0.19 : ℚ) + 0.01 * 6)) * 4000
             urban_demand_twh := 4000
             microreactor_units := 0
             microreactor_generation_twh := 0
             microreactor_share_of_nuclear := 0
             model_version := "arima_v1.0" }]) := by
  have hgeneral : ∀ frame : List HistRow, frame ≠ [] → ∀ (s : String) (m : ℚ),
      arimaScenarioMultiplier s = .ok m → ∀ sy ey : ℤ,
      arimaForecast frame sy ey [s] =
        .ok ((yearRange sy ey).map (fun y =>
          { scenario_name := s
            year := y
            nuclear_share := clamp01 ((arimaLastShare frame +
              olsSlope (arimaShares frame) * ((y - arimaMaxYear frame : ℤ) : ℚ)) * m)
            nuclear_generation_twh := clamp01 ((arimaLastShare frame +
              olsSlope (arimaShares frame) * ((y - arimaMaxYear frame : ℤ) : ℚ)) * m) * 4000
            urban_demand_twh := 4000
            microreactor_units := 0
            microreactor_generation_twh := 0
            microreactor_share_of_nuclear := 0
            model_version := "arima_v1.0" })) := by
    intro frame hne s m hm sy ey
    have hshne : arimaShares frame ≠ [] := by
      intro h
      exact hne (List.map_eq_nil_iff.mp h)
    have hyne : frame.map (fun h => h.year) ≠ [] := by
      intro h
      exact hne (List.map_eq_nil_iff.mp h)
    obtain ⟨ls, hls, hls2⟩ := expectLast_ok hshne
    obtain ⟨mx, hmx, hmx2⟩ := expectMax_ok hyne
    have h1 : arimaLastShare frame = ls := by
      unfold arimaLastShare
      rw [hls2]
      rfl
    have h2 : arimaMaxYear frame = mx := by
      unfold arimaMaxYear
      rw [hmx2]
      rfl
    have hcol : getColumn frame ("nuclear_share") = .ok (arimaShares frame) := by
      unfold getColumn arimaShares
      rw [if_neg (by simpa [List.isEmpty_iff] using hne), if_pos rfl]
    have hyc : getYearColumn frame = .ok (frame.map (fun h => h.year)) := by
      unfold getYearColumn
      rw [if_neg (by simpa [List.isEmpty_iff] using hne)]
    have hrow : ∀ y ∈ yearRange sy ey,
        arimaYearRow frame (arimaShares frame) (olsSlope (arimaShares frame)) m s y =
          .ok { scenario_name := s
                year := y
                nuclear_share := clamp01 ((arimaLastShare frame +
                  olsSlope (arimaShares frame) * ((y - arimaMaxYear frame : ℤ) : ℚ)) * m)
                nuclear_generation_twh := clamp01 ((arimaLastShare frame +
                  olsSlope (arimaShares frame) * ((y - arimaMaxYear frame : ℤ) : ℚ)) * m) * 4000
                urban_demand_twh := 4000
                microreactor_units := 0
                microreactor_generation_twh := 0
                microreactor_share_of_nuclear := 0
                model_version := "arima_v1.0" } := by
      intro y _hy
      simp only [arimaYearRow, hyc, hmx, hls, h1, h2]
    have hsrows : arimaScenarioRows frame (arimaShares frame)
        (olsSlope (arimaShares frame)) sy ey s = .ok ((yearRange sy ey).map (fun y =>
          { scenario_name := s
            year := y
            nuclear_share := clamp01 ((arimaLastShare frame +
              olsSlope (arimaShares frame) * ((y - arimaMaxYear frame : ℤ) : ℚ)) * m)
            nuclear_generation_twh := clamp01 ((arimaLastShare frame +
              olsSlope (arimaShares frame) * ((y - arimaMaxYear frame : ℤ) : ℚ)) * m) * 4000
            urban_demand_twh := 4000
            microreactor_units := 0
            microreactor_generation_twh := 0
            microreactor_share_of_nuclear := 0
            model_version := "arima_v1.0" })) := by
      unfold arimaScenarioRows
      rw [hm]
      exact exceptMapList_ok_of hrow
    simp only [arimaForecast, hcol]
    rw [exceptMapList, hsrows, exceptMapList]
    simp
  refine ⟨⟨rfl, rfl, rfl⟩, hgeneral, by norm_num [olsSlope, List.range_succ], ?_⟩
  have hyr : yearRange 2030 2030 = [2030] := by norm_num [yearRange, List.range_succ]
  rw [hgeneral hist2 (List.cons_ne_nil _ _) ("base") 1 rfl 2030 2030, hyr]
  simp only [List.map_cons, List.map_nil]
  have e1 : arimaLastShare hist2 = 0.19 := rfl
  have e2 : arimaMaxYear hist2 = 2024 := rfl
  have e3 : arimaShares hist2 = [0.18, 0.19] := rfl
  rw [e1, e2, e3]
  have harith : clamp01 (((0.19 : ℚ) + olsSlope [0.18, 0.19] *
      ((2030 - 2024 : ℤ) : ℚ)) * 1) = min 1 (max 0 ((0.19 : ℚ) + 0.01 * 6)) := by
    norm_num [olsSlope, List.range_succ, clamp01, max_def, min_def]
  rw [harith]

/-- Witness for `c4_trend_extrapolation`: the general formula applied to
the concrete two-point history at the aggressive multiplier. -/
theorem c4_trend_extrapolation_witness :
    arimaForecast hist2 2035 2035 ["aggressive"] =
      .ok ((yearRange 2035 2035).map (fun y =>
        { scenario_name := "aggressive"
          year := y
          nuclear_share := clamp01 ((arimaLastShare hist2 +
            olsSlope (arimaShares hist2) * ((y - arimaMaxYear hist2 : ℤ) : ℚ)) * 1.2)
          nuclear_generation_twh := clamp01 ((arimaLastShare hist2 +
            olsSlope (arimaShares hist2) * ((y - arimaMaxYear hist2 : ℤ) : ℚ)) * 1.2) * 4000
          urban_demand_twh := 4000
          microreactor_units := 0
          microreactor_generation_twh := 0
          microreactor_share_of_nuclear := 0
          model_version := "arima_v1.0" })) :=
  c4_trend_extrapolation.2.1 hist2 (List.cons_ne_nil _ _) ("aggressive") 1.2 rfl 2035 2035

/-! Failure semantics of the orchestrator and the combiner's treatment of
non-finite values. -/

/-- A model row carrying NaN in every numeric field at ("base", 2025). -/
def c9nanRow : RowF :=
  { scenario_name := "base"
    year := 2025
    nuclear_share := .nan
    nuclear_generation_twh := .nan
    urban_demand_twh := .nan
    microreactor_units := 0
    microreactor_generation_twh := .fin 0
    microreactor_share_of_nuclear := .fin 0
    model_version := "prophet_v1.0" }

/-- A model row carrying NaN in every numeric field at ("base", 2030). -/
def c9nanRow2 : RowF :=
  { scenario_name := "base"
    year := 2030
    nuclear_share := .nan
    nuclear_generation_twh := .nan
    urban_demand_twh := .nan
    microreactor_units := 0
    microreactor_generation_twh := .fin 0
    microreactor_share_of_nuclear := .fin 0
    model_version := "ml_ensemble_v1.0" }

/-- C9 counterexample: a NaN model value for the cell ("base", 2025) is
not treated as a failure for that cell — the combiner emits a combined
row for it, propagating the NaN into every weighted field. -/
theorem c9_nan_counterexample :
    ensembleForecastsF [("prophet", [c9nanRow])] ["base"] =
      [{ scenario_name := "base"
         year := 2025
         nuclear_share := PyVal.nan
         nuclear_generation_twh := PyVal.nan
         urban_demand_twh := PyVal.nan
         microreactor_units := 0
         microreactor_generation_twh := PyVal.fin 0
         microreactor_share_of_nuclear := PyVal.fin 0
         model_version := "v1.0" }] := rfl

/-- C9 amended: a model whose `forecast` call raises is excluded entirely
from the run (the orchestrator's outcome is the one computed from the
remaining models alone, with no error); but a model value that is NaN is
not detected — the combiner includes the cell and propagates the NaN into
the combined row. -/
theorem c9_failure_semantics :
    (∀ (models1 models2 : List (String × ModelFn)) (name : String) (m : ModelFn)
      (recs : List USElectricitySummaryRec) (scnsOpt : Option (List String))
      (sy ey : ℤ) (incl : Bool) (expFn : ℚ → ℚ) (e : String),
      m (getHistoricalData recs) sy ey
          (scnsOpt.getD ["conservative", "base", "aggressive"]) = .error e →
      generateScenariosWith (models1 ++ (name, m) :: models2) recs scnsOpt sy ey
          incl expFn =
        generateScenariosWith (models1 ++ models2) recs scnsOpt sy ey incl expFn) ∧
    ensembleForecastsF [("ml_ensemble", [c9nanRow2])] ["base"] =
      [{ scenario_name := "base"
         year := 2030
         nuclear_share := PyVal.nan
         nuclear_generation_twh := PyVal.nan
         urban_demand_twh := PyVal.nan
         microreactor_units := 0
         microreactor_generation_twh := PyVal.fin 0
         microreactor_share_of_nuclear := PyVal.fin 0
         model_version := "v1.0" }] := by
  constructor
  · intro models1 models2 name m recs scnsOpt sy ey incl expFn e hm
    simp only [generateScenariosWith, runModels, List.filterMap_append,
      List.filterMap_cons, hm]
  · rfl

/-- Witness for `c9_failure_semantics`: dropping an erroring model
(`ARIMAModel` on an unrecognized scenario over an empty history) leaves
the orchestrator's outcome equal to the run without that model. -/
theorem c9_failure_semantics_witness :
    generateScenariosWith ([] ++ ("arima", arimaForecast) :: []) [] (some ["x"])
        2030 2030 false (fun _ => 1) =
      generateScenariosWith ([] ++ []) [] (some ["x"]) 2030 2030 false (fun _ => 1) :=
  c9_failure_semantics.1 [] [] ("arima") arimaForecast [] (some ["x"]) 2030 2030
    false (fun _ => 1) ("KeyError: nuclear_share") rfl

/-! The placeholder models and the orchestrator on empty history. -/

/-- C10: the two placeholder models ignore the history and the scenario
name, produce exactly one row per (scenario, year) of the requested grid
with shares `0.2 + 0.01 (y − 2025)` and `0.18 + 0.008 (y − 2025)`; as a
consequence, on an empty history with a non-empty scenario list and a
valid year range the orchestrator returns a non-empty sequence instead of
raising a no-historical-data error. -/
theorem c10_placeholder_models :
    (∀ (frame frame' : List HistRow) (sy ey : ℤ) (scns : List String),
      prophetForecast frame sy ey scns = prophetForecast frame' sy ey scns ∧
      mlEnsembleForecast frame sy ey scns = mlEnsembleForecast frame' sy ey scns) ∧
    (∀ (frame : List HistRow) (sy ey : ℤ) (scns : List String) (rows : List Row),
      prophetForecast frame sy ey scns = .ok rows →
      (∀ r ∈ rows, r.scenario_name ∈ scns ∧ sy ≤ r.year ∧ r.year ≤ ey ∧
        r.nuclear_share = 0.2 + 0.01 * ((r.year : ℚ) - 2025)) ∧
      (scns.Nodup → ∀ s ∈ scns, ∀ y : ℤ, sy ≤ y → y ≤ ey →
        (rows.filter (fun r => r.scenario_name == s && r.year == y)).length = 1)) ∧
    (∀ (frame : List HistRow) (sy ey : ℤ) (scns : List String) (rows : List Row),
      mlEnsembleForecast frame sy ey scns = .ok rows →
      (∀ r ∈ rows, r.scenario_name ∈ scns ∧ sy ≤ r.year ∧ r.year ≤ ey ∧
        r.nuclear_share = 0.18 + 0.008 * ((r.year : ℚ) - 2025)) ∧
      (scns.Nodup → ∀ s ∈ scns, ∀ y : ℤ, sy ≤ y → y ≤ ey →
        (rows.filter (fun r => r.scenario_name == s && r.year == y)).length = 1)) ∧
    (∀ (expFn : ℚ → ℚ) (s : String) (rest : List String) (sy ey : ℤ) (incl : Bool),
      2025 ≤ sy → sy ≤ ey → ey ≤ 2050 →
      (generateScenarios expFn [] (some (s :: rest)) sy ey incl).result ≠ []) := by
  refine ⟨fun _ _ _ _ _ => ⟨rfl, rfl⟩, ?_, ?_, ?_⟩
  · intro frame sy ey scns rows hok
    cases hok
    constructor
    · intro r hr
      rw [show (fun s => (yearRange sy ey).map (prophetRow s)) =
          (fun s => (yearRange sy ey).filterMap (fun y => some (prophetRow s y)))
          from funext (fun s => map_eq_filterMap_some _ _)] at hr
      obtain ⟨s, hs, y, hy, hr2⟩ := mem_grid.mp hr
      cases hr2
      obtain ⟨hy1, hy2⟩ := mem_yearRange.mp hy
      exact ⟨hs, hy1, hy2, rfl⟩
    · intro hnd s hs y hy1 hy2
      rw [show (fun s => (yearRange sy ey).map (prophetRow s)) =
          (fun s => (yearRange sy ey).filterMap (fun y => some (prophetRow s y)))
          from funext (fun s => map_eq_filterMap_some _ _)]
      exact @grid_length_one Row (fun x => x.scenario_name) (fun x => x.year) scns hnd
        (yearRange sy ey) (yearRange_nodup sy ey)
        (fun s' y' => some (prophetRow s' y'))
        (fun s' y' r h => by cases h; exact ⟨rfl, rfl⟩)
        s y hs (mem_yearRange.mpr ⟨hy1, hy2⟩) rfl
  · intro frame sy ey scns rows hok
    cases hok
    constructor
    · intro r hr
      rw [show (fun s => (yearRange sy ey).map (mlRow s)) =
          (fun s => (yearRange sy ey).filterMap (fun y => some (mlRow s y)))
          from funext (fun s => map_eq_filterMap_some _ _)] at hr
      obtain ⟨s, hs, y, hy, hr2⟩ := mem_grid.mp hr
      cases hr2
      obtain ⟨hy1, hy2⟩ := mem_yearRange.mp hy
      exact ⟨hs, hy1, hy2, rfl⟩
    · intro hnd s hs y hy1 hy2
      rw [show (fun s => (yearRange sy ey).map (mlRow s)) =
          (fun s => (yearRange sy ey).filterMap (fun y => some (mlRow s y)))
          from funext (fun s => map_eq_filterMap_some _ _)]
      exact @grid_length_one Row (fun x => x.scenario_name) (fun x => x.year) scns hnd
        (yearRange sy ey) (yearRange_nodup sy ey)
        (fun s' y' => some (mlRow s' y'))
        (fun s' y' r h => by cases h; exact ⟨rfl, rfl⟩)
        s y hs (mem_yearRange.mpr ⟨hy1, hy2⟩) rfl
  · intro expFn s rest sy ey incl h1 h2 h3
    have hrun : runModels (standardModels expFn) (getHistoricalData []) sy ey
        (s :: rest) =
        [("prophet", (s :: rest).flatMap (fun sc => (yearRange sy ey).map (prophetRow sc))),
         ("ml_ensemble", (s :: rest).flatMap (fun sc => (yearRange sy ey).map (mlRow sc)))] := rfl
    have hmem : prophetRow s sy ∈
        (s :: rest).flatMap (fun sc => (yearRange sy ey).map (prophetRow sc)) :=
      List.mem_flatMap.mpr ⟨s, List.mem_cons_self s rest,
        List.mem_map.mpr ⟨sy, mem_yearRange.mpr ⟨le_refl sy, h2⟩, rfl⟩⟩
    have hfind : (findCell
        ((s :: rest).flatMap (fun sc => (yearRange sy ey).map (prophetRow sc)))
        s sy).isSome := by
      unfold findCell
      rw [List.find?_isSome]
      exact ⟨prophetRow s sy, hmem, by simp [prophetRow]⟩
    have hcell : cellPredictions
        [("prophet", (s :: rest).flatMap (fun sc => (yearRange sy ey).map (prophetRow sc))),
         ("ml_ensemble", (s :: rest).flatMap (fun sc => (yearRange sy ey).map (mlRow sc)))]
        s sy ≠ [] := by
      unfold cellPredictions
      rw [List.filterMap_cons]
      have hPne : ¬ ((s :: rest).flatMap
          (fun sc => (yearRange sy ey).map (prophetRow sc))).isEmpty = true := by
        rw [List.isEmpty_iff]
        intro h0
        rw [h0] at hmem
        cases hmem
      rw [if_neg hPne]
      obtain ⟨r0, hr0⟩ := Option.isSome_iff_exists.mp hfind
      rw [hr0]
      simp
    have hySy : sy ∈ yearRange forecastStartYear forecastEndYear :=
      mem_yearRange.mpr ⟨h1, le_trans h2 h3⟩
    have hens : ensembleForecasts
        [("prophet", (s :: rest).flatMap (fun sc => (yearRange sy ey).map (prophetRow sc))),
         ("ml_ensemble", (s :: rest).flatMap (fun sc => (yearRange sy ey).map (mlRow sc)))]
        (s :: rest) ≠ [] := by
      intro h0
      have hmem2 := mem_ensembleForecasts.mpr
        ⟨s, List.mem_cons_self s rest, sy, hySy, hcell, rfl⟩
      rw [h0] at hmem2
      cases hmem2
    simp only [generateScenarios, generateScenariosWith, Option.getD_some, hrun]
    cases incl with
    | false => exact hens
    | true =>
      simp only [if_true, addMicroreactorProjections]
      intro h0
      exact hens (List.map_eq_nil_iff.mp h0)

/-- Witness for `c10_placeholder_models`: on an empty history with the
scenario list ["base"] and year range 2030..2030 the orchestrator's
result is non-empty. -/
theorem c10_placeholder_models_witness :
    (generateScenarios (fun _ => 1) [] (some ["base"]) 2030 2030 false).result ≠ [] :=
  c10_placeholder_models.2.2.2 (fun _ => 1) ("base") [] 2030 2030 false
    (by norm_num) (by norm_num) (by norm_num)
